/-
Verification development for a multi-agent customer-service system.

The system has three layers, all embedded below as pure Lean functions:
  * a tool server (`mcp_server.py`) exposing five database operations over a
    JSON-RPC-style protocol (`get_customer`, `list_customers`,
    `update_customer`, `create_ticket`, `get_customer_history`, dispatched by
    `handle_tools_call`);
  * a tool client (`mcp_call_tool` in `agents.py`) that frames requests and
    unwraps responses;
  * an orchestration layer (`RouterAgent.handle_query` in `agents.py`) that
    classifies a free-text query by an ordered list of substring triggers,
    and a composite data-access read
    (`CustomerDataAgent.get_active_customers_with_open_tickets`).

The SQLite store is modelled as an explicit `DB` value (lists of customers
and tickets, a fresh-ticket-id counter, and a `now` value standing for
CURRENT_TIMESTAMP); each mutating operation returns the new store.
Timestamps are modelled as naturals: all the source needs of them is a
total order.
-/
import Mathlib

namespace Mcs

/-- A row of the `customers` table. -/
structure Customer where
  id : Int
  name : String
  email : String
  phone : String
  status : String
  updated_at : Nat
deriving DecidableEq, Repr

/-- A row of the `tickets` table. -/
structure Ticket where
  id : Int
  customer_id : Int
  issue : String
  status : String
  priority : String
  created_at : Nat
deriving DecidableEq, Repr

/-- The SQLite store `support.db`: the two tables, the next rowid SQLite
would assign to an inserted ticket, and the value CURRENT_TIMESTAMP would
produce now. -/
structure DB where
  customers : List Customer
  tickets : List Ticket
  nextTicketId : Int
  now : Nat
deriving DecidableEq, Repr

/-- The shape every tool implementation returns: a dict carrying
`success: true` plus a payload, or `success: false` plus an `error` string.
(The `count` fields the source adds are the lengths of the returned lists
and are not modelled separately.) -/
inductive ToolResult (α : Type) where
  | success (val : α)
  | failure (error : String)
deriving DecidableEq, Repr

/-- `ORDER BY id` on the customers table. -/
def sortById (cs : List Customer) : List Customer :=
  List.insertionSort (fun a b => a.id ≤ b.id) cs

/-- SQLite `LIMIT n`: a negative limit means no limit. -/
def sqliteLimit {α : Type} (limit : Int) (l : List α) : List α :=
  if limit < 0 then l else l.take limit.toNat

/-- `get_customer` (mcp_server.py): `SELECT * FROM customers WHERE id = ?`,
`fetchone`, success with the row or a not-found failure. -/
def get_customer (db : DB) (customer_id : Int) : ToolResult Customer :=
  match db.customers.find? (fun c => c.id == customer_id) with
  | some row => .success row
  | none => .failure s!"Customer {customer_id} not found"

/-- `list_customers` (mcp_server.py).  The source guards with
`if status:`, so both `None` and the empty string take the unfiltered
branch; only a non-empty status is validated against
`["active", "disabled"]`. -/
def list_customers (db : DB) (status : Option String) (limit : Int) :
    ToolResult (List Customer) :=
  match status with
  | none => .success (sqliteLimit limit (sortById db.customers))
  | some s =>
    if s == "" then
      .success (sqliteLimit limit (sortById db.customers))
    else if s == "active" || s == "disabled" then
      .success (sqliteLimit limit (sortById (db.customers.filter
        (fun c => c.status == s))))
    else
      .failure "Status must be \"active\" or \"disabled\""

/-- The `data` dict passed to `update_customer`, restricted to the four
`allowed_fields`; `none` covers both an absent key and a key whose value is
`None` (the source skips both).  Keys outside `allowed_fields` are ignored
by the source loop and hence not modelled. -/
structure UpdateData where
  name : Option String
  email : Option String
  phone : Option String
  status : Option String
deriving DecidableEq, Repr

/-- Whether the source's `updates` list is non-empty. -/
def UpdateData.hasValidField (d : UpdateData) : Bool :=
  d.name.isSome || d.email.isSome || d.phone.isSome || d.status.isSome

/-- The effect of the generated `UPDATE ... SET ...` on one matching row:
each provided field is overwritten and `updated_at = CURRENT_TIMESTAMP`. -/
def applyUpdate (d : UpdateData) (now : Nat) (c : Customer) : Customer :=
  { c with
    name := d.name.getD c.name
    email := d.email.getD c.email
    phone := d.phone.getD c.phone
    status := d.status.getD c.status
    updated_at := now }

/-- `update_customer` (mcp_server.py): reject an empty update, check the
customer exists, run the UPDATE, then re-select and return the row.  The
final `none` branch mirrors the except-path the source would take if the
re-select found no row (it is unreachable once existence was checked). -/
def update_customer (db : DB) (customer_id : Int) (data : UpdateData) :
    ToolResult Customer × DB :=
  if !data.hasValidField then
    (.failure "No valid fields to update", db)
  else
    match db.customers.find? (fun c => c.id == customer_id) with
    | none => (.failure s!"Customer {customer_id} not found", db)
    | some _ =>
      let customers' := db.customers.map
        (fun c => if c.id == customer_id then applyUpdate data db.now c else c)
      let db' := { db with customers := customers' }
      match customers'.find? (fun c => c.id == customer_id) with
      | some row => (.success row, db')
      | none => (.failure "Database error: row not found", db')

/-- The customers table after the UPDATE statement: every row matching the
id is rewritten, all others are untouched. -/
def updatedCustomers (db : DB) (cid : Int) (d : UpdateData) : List Customer :=
  db.customers.map (fun c => if c.id == cid then applyUpdate d db.now c else c)

/-- `create_ticket` (mcp_server.py): validate the priority, check the
customer exists, INSERT with status 'open' and created_at =
CURRENT_TIMESTAMP, then re-select the inserted row by `lastrowid`.  The
final `none` branch mirrors the except-path if the re-select found no row
(unreachable when `nextTicketId` is fresh). -/
def create_ticket (db : DB) (customer_id : Int) (issue : String)
    (priority : String) : ToolResult Ticket × DB :=
  if !(["low", "medium", "high"].contains priority) then
    (.failure "Priority must be one of: \"low\", \"medium\", \"high\"", db)
  else
    match db.customers.find? (fun c => c.id == customer_id) with
    | none => (.failure s!"Customer {customer_id} not found", db)
    | some _ =>
      let t : Ticket :=
        { id := db.nextTicketId, customer_id := customer_id, issue := issue
          status := "open", priority := priority, created_at := db.now }
      let tickets' := db.tickets ++ [t]
      let db' := { db with tickets := tickets', nextTicketId := db.nextTicketId + 1 }
      match tickets'.find? (fun x => x.id == db.nextTicketId) with
      | some row => (.success row, db')
      | none => (.failure "Database error: row not found", db')

/-- Descending order on `created_at` (newest first): `tickGe a b` says `a`
may come before `b`. -/
def tickGe (a b : Ticket) : Prop := b.created_at ≤ a.created_at

instance : DecidableRel tickGe := fun a b => Nat.decLe b.created_at a.created_at

instance : IsTotal Ticket tickGe :=
  ⟨fun a b => Or.symm (Nat.le_total a.created_at b.created_at)⟩

instance : IsTrans Ticket tickGe :=
  ⟨fun _ _ _ h1 h2 => Nat.le_trans h2 h1⟩

/-- The rows `SELECT * FROM tickets WHERE customer_id = ? ORDER BY
created_at DESC` produces.  SQLite leaves the relative order of equal
timestamps unspecified; insertion sort is one witness of such an order. -/
def historyRows (db : DB) (customer_id : Int) : List Ticket :=
  List.insertionSort tickGe (db.tickets.filter (fun t => t.customer_id == customer_id))

/-- `get_customer_history` (mcp_server.py): always succeeds with the
(possibly empty) ordered ticket list. -/
def get_customer_history (db : DB) (customer_id : Int) : ToolResult (List Ticket) :=
  .success (historyRows db customer_id)

/-! ### The protocol layer (`handle_tools_call` in mcp_server.py) -/

/-- The JSON payload each of the five tools can produce (the dict that gets
`json.dumps`-ed into the response's content text). -/
inductive ToolPayload where
  | customerR (r : ToolResult Customer)
  | customersR (r : ToolResult (List Customer))
  | ticketR (r : ToolResult Ticket)
  | ticketsR (r : ToolResult (List Ticket))
deriving DecidableEq, Repr

/-- The `arguments` object of a `tools/call` request, restricted to the keys
the five tools accept; `none` means the key is absent. -/
structure ToolArguments where
  customer_id : Option Int
  status : Option String
  limit : Option Int
  data : Option UpdateData
  issue : Option String
  priority : Option String
deriving DecidableEq, Repr

/-- A `tools/call` JSON-RPC message: `message.get("id")`,
`params.get("name")` and `params.get("arguments", {})`. -/
structure CallMessage where
  id : Option Int
  name : Option String
  arguments : ToolArguments
deriving DecidableEq, Repr

/-- The keys of `TOOL_FUNCTIONS`. -/
def toolNames : List String :=
  ["get_customer", "list_customers", "update_customer", "create_ticket",
   "get_customer_history"]

/-- `name not in TOOL_FUNCTIONS` (a missing `name` is `None`, which is never
a key). -/
def nameKnown : Option String → Bool
  | some n => toolNames.contains n
  | none => false

/-- The f-string `f"Tool not found: {name}"` (Python renders a missing name
as `None`). -/
def toolNotFoundMsg : Option String → String
  | some n => s!"Tool not found: {n}"
  | none => "Tool not found: None"

/-- A JSON-RPC response body: either a `result` wrapping a tool payload or a
top-level `error` object with `code` and `message`. -/
inductive RpcOutcome where
  | result (payload : ToolPayload)
  | rpcError (code : Int) (message : String)
deriving DecidableEq, Repr

/-- A JSON-RPC response, echoing the request id. -/
structure RpcResponse where
  id : Option Int
  outcome : RpcOutcome
deriving DecidableEq, Repr

/-- `TOOL_FUNCTIONS[name](**arguments)`: keyword binding plus the call.
`none` models a `TypeError` raised by the binding itself (missing required
argument or unexpected keyword), which the source catches.  Optional
arguments take their declared defaults (`limit=10`, `priority="medium"`). -/
def dispatchTool (db : DB) (n : String) (a : ToolArguments) :
    Option (ToolPayload × DB) :=
  if n == "get_customer" then
    match a with
    | ⟨some cid, none, none, none, none, none⟩ =>
      some (.customerR (get_customer db cid), db)
    | _ => none
  else if n == "list_customers" then
    match a with
    | ⟨none, status, limit, none, none, none⟩ =>
      some (.customersR (list_customers db status (limit.getD 10)), db)
    | _ => none
  else if n == "update_customer" then
    match a with
    | ⟨some cid, none, none, some d, none, none⟩ =>
      let r := update_customer db cid d
      some (.customerR r.1, r.2)
    | _ => none
  else if n == "create_ticket" then
    match a with
    | ⟨some cid, none, none, none, some issue, priority⟩ =>
      let r := create_ticket db cid issue (priority.getD "medium")
      some (.ticketR r.1, r.2)
    | _ => none
  else if n == "get_customer_history" then
    match a with
    | ⟨some cid, none, none, none, none, none⟩ =>
      some (.ticketsR (get_customer_history db cid), db)
    | _ => none
  else
    none

/-- `handle_tools_call` (mcp_server.py): unknown tool names short-circuit to
a `-32601` error before any tool function runs; a fault during dispatch is
caught and degraded to a `-32603` error; otherwise the tool payload is
wrapped as the result.  The response always echoes `message.get("id")`. -/
def handle_tools_call (db : DB) (m : CallMessage) : RpcResponse × DB :=
  if nameKnown m.name then
    match dispatchTool db (m.name.getD "") m.arguments with
    | some (p, db') => ({ id := m.id, outcome := .result p }, db')
    | none =>
      ({ id := m.id,
         outcome := .rpcError (-32603) "Tool execution error: invalid arguments" }, db)
  else
    ({ id := m.id, outcome := .rpcError (-32601) (toolNotFoundMsg m.name) }, db)

/-! ### The tool client (`mcp_call_tool` in agents.py)

The client is generic in the tool payload it transports: the payload text
round-trips through JSON unchanged, so it is modelled as a type
parameter. -/

/-- The JSON body of the server's HTTP reply, as the client sees it: either
a `result` (whose `content[0].text` decodes to the tool payload) or a
top-level `error` object. -/
inductive McpData (α : Type) where
  | result (payload : α)
  | rpcError (code : Int) (message : String)
deriving DecidableEq, Repr

/-- The parsed JSON-RPC reply. -/
structure McpResponse (α : Type) where
  id : Option Int
  data : McpData α
deriving DecidableEq, Repr

/-- What `requests.post(MCP_URL, json=payload)` can come back with: a raised
exception (connection failure etc.), or an HTTP response with a status code
and a JSON body. -/
inductive TransportOutcome (α : Type) where
  | raised (msg : String)
  | httpResponse (status : Nat) (body : McpResponse α)
deriving DecidableEq, Repr

/-- What `mcp_call_tool` returns when it returns: the decoded tool payload,
or the synthesized dict `\x7b"success": False, "error": <message>\x7d` built
from a top-level JSON-RPC error. -/
inductive McpReturn (α : Type) where
  | payload (a : α)
  | synthesized (error : String)
deriving DecidableEq, Repr

/-- `resp.raise_for_status()`: raises exactly when the status code is in
400–599.  (The model keeps only the status code in the exception text.) -/
def raiseForStatus (status : Nat) : Except String Unit :=
  if 400 ≤ status ∧ status < 600 then .error s!"HTTP error {status}" else .ok ()

/-- `mcp_call_tool` (agents.py).  The function body has no try/except: an
exception from `requests.post` or from `raise_for_status` propagates to the
caller (modelled as `Except.error`).  Only when the HTTP call succeeds does
it inspect the JSON: a `result` member is unwrapped and parsed, anything
else becomes the synthesized failure payload. -/
def mcp_call_tool {α : Type} (t : TransportOutcome α) : Except String (McpReturn α) :=
  match t with
  | .raised msg => .error msg
  | .httpResponse status body =>
    match raiseForStatus status with
    | .error msg => .error msg
    | .ok _ =>
      match body.data with
      | .result a => .ok (.payload a)
      | .rpcError _ msg => .ok (.synthesized msg)

/-! ### The composite read
(`CustomerDataAgent.get_active_customers_with_open_tickets` in agents.py)

The composite is stated over the two fetch operations it sequences, so that
a failing history fetch (a backend fault surfaced as `success: false`) can
be injected. -/

/-- One entry of the composite's result: a customer paired with their open
tickets. -/
structure OpenTicketItem where
  customer : Customer
  open_tickets : List Ticket
deriving DecidableEq, Repr

/-- One iteration of the composite's loop body: fetch the customer's
history; a failed fetch contributes nothing (`continue`); otherwise filter
the open tickets and contribute an item only when there is at least one. -/
def compositeStep (histFn : Int → ToolResult (List Ticket)) (cust : Customer) :
    Option OpenTicketItem :=
  match histFn cust.id with
  | .failure _ => none
  | .success tickets =>
    let open_tickets := tickets.filter (fun t => t.status == "open")
    if open_tickets.isEmpty then none
    else some { customer := cust, open_tickets := open_tickets }

/-- `get_active_customers_with_open_tickets` (agents.py): list active
customers with limit 100; on failure return that result verbatim; otherwise
walk the customers in listing order, skip any whose history fetch fails,
keep those with at least one ticket of status `open` paired with exactly
those tickets.  The source's append loop is the `filterMap` of
`compositeStep`. -/
def get_active_customers_with_open_tickets
    (listFn : Option String → Int → ToolResult (List Customer))
    (histFn : Int → ToolResult (List Ticket)) : ToolResult (List OpenTicketItem) :=
  match listFn (some "active") 100 with
  | .failure e => .failure e
  | .success customers =>
    .success (customers.filterMap (compositeStep histFn))

/-- Spec-side reading of the composite's keep condition: the history fetch
succeeded and yielded at least one open ticket. -/
def histKeeps (histFn : Int → ToolResult (List Ticket)) (c : Customer) : Bool :=
  match histFn c.id with
  | .success ts => !(ts.filter (fun t => t.status == "open")).isEmpty
  | .failure _ => false

/-- Spec-side reading of a kept customer's open tickets. -/
def openOf (histFn : Int → ToolResult (List Ticket)) (c : Customer) : List Ticket :=
  match histFn c.id with
  | .success ts => ts.filter (fun t => t.status == "open")
  | .failure _ => []

/-! ### The orchestrator (`RouterAgent.handle_query` in agents.py)

`handle_query` is a chain of early-returning `if` statements over the
lower-cased query plus the extracted customer id; what the claims are about
is which branch fires, so the chain is embedded as a function onto a tag
naming the dispatched rule. -/

/-- `str.lower()` on the ASCII range (the trigger literals and the queries
the claims evaluate are ASCII). -/
def strLower (s : String) : String := ⟨s.data.map Char.toLower⟩

/-- Python literal `pat in text` on strings: does `pat` occur as a
contiguous substring? -/
def litAtHead : List Char → List Char → Bool
  | [], _ => true
  | _ :: _, [] => false
  | p :: ps, c :: cs => p == c && litAtHead ps cs

/-- Scan every suffix for the pattern at its head. -/
def hasSubstrChars (pat : List Char) : List Char → Bool
  | [] => pat.isEmpty
  | c :: cs => litAtHead pat (c :: cs) || hasSubstrChars pat cs

/-- `pat in s` (Python substring containment). -/
def containsSubstr (s pat : String) : Bool := hasSubstrChars pat.toList s.toList

/-- Python `\s` on the ASCII range (the queries at issue are ASCII). -/
def isPySpace (c : Char) : Bool :=
  c == ' ' || c == '\t' || c == '\n' || c == '\r' || c == '\x0b' || c == '\x0c'

/-- `int()` of a digit run. -/
def digitsToNat (ds : List Char) : Nat :=
  ds.foldl (fun n c => 10 * n + (c.toNat - 48)) 0

/-- Match a literal at the head of the input, returning the rest. -/
def dropLit : List Char → List Char → Option (List Char)
  | [], cs => some cs
  | _ :: _, [] => none
  | p :: ps, c :: cs => if p == c then dropLit ps cs else none

/-- After the keyword: `\s*(\d+)` — greedily skip whitespace, then require
at least one digit and capture the maximal digit run.  (Backtracking over
`\s*` can never help here since `\s` and `\d` are disjoint.) -/
def afterKeyword (rest : List Char) : Option Nat :=
  let ds := (rest.dropWhile isPySpace).takeWhile Char.isDigit
  if ds.isEmpty then none else some (digitsToNat ds)

/-- The regex `(?:id|customer)\s*(\d+)` anchored at one position: try the
alternatives in the regex's order (they start with distinct letters, so at
most one literal can match). -/
def matchCidAt (cs : List Char) : Option Nat :=
  (match dropLit "id".toList cs with
   | some rest => afterKeyword rest
   | none => none).orElse
  (fun _ =>
   match dropLit "customer".toList cs with
   | some rest => afterKeyword rest
   | none => none)

/-- `re.search`: leftmost position wins. -/
def searchCid : List Char → Option Nat
  | [] => none
  | c :: cs => (matchCidAt (c :: cs)).orElse (fun _ => searchCid cs)

/-- `RouterAgent._extract_customer_id`:
`re.search(r"(?:id|customer)\s*(\d+)", text.lower())`, returning the
captured number. -/
def extractCustomerId (q : String) : Option Nat :=
  searchCid (strLower q).toList

/-- A tag for each early-return branch of `handle_query`, in source order:
(a) the direct `get_customer` lookup, (b) Scenario 1 account help,
(c) Scenario 2 billing+cancel, (d) Scenario 3 ticket report, (e) the
coordinated upgrade, (f) the double-charge escalation, (g) the multi-intent
update-email+history flow, (h) the fallback reply. -/
inductive Route where
  | simpleQuery
  | accountHelp
  | billingCancel
  | ticketReport
  | upgrade
  | escalation
  | updateEmailHistory
  | fallback
deriving DecidableEq, Repr

/-- The dispatch decision of `RouterAgent.handle_query`: the chain of
early-returning `if` tests over `text = query.lower()` and
`cid = self._extract_customer_id(query)`, in the source's order. -/
def handleQueryRoute (query : String) : Route :=
  let text := strLower query
  let cid := extractCustomerId query
  if containsSubstr text "get customer information" && cid.isSome then
    .simpleQuery
  else if containsSubstr text "help with my account" && cid.isSome then
    .accountHelp
  else if containsSubstr text "cancel" && containsSubstr text "billing" then
    .billingCancel
  else if containsSubstr text "active customers" && containsSubstr text "open tickets" then
    .ticketReport
  else if containsSubstr text "upgrading my account" && cid.isSome then
    .upgrade
  else if containsSubstr text "charged twice" || containsSubstr text "double charged" then
    .escalation
  else if containsSubstr text "update my email" && containsSubstr text "ticket history" then
    .updateEmailHistory
  else
    .fallback

/-- The spec's reading of §4.6: a fixed, ordered list of triggers a–g (h is
the fallback), each paired with the rule it routes to. -/
def routerTriggers : List (Route × (String → Bool)) :=
  [ (.simpleQuery, fun q =>
      containsSubstr (strLower q) "get customer information" && (extractCustomerId q).isSome),
    (.accountHelp, fun q =>
      containsSubstr (strLower q) "help with my account" && (extractCustomerId q).isSome),
    (.billingCancel, fun q =>
      containsSubstr (strLower q) "cancel" && containsSubstr (strLower q) "billing"),
    (.ticketReport, fun q =>
      containsSubstr (strLower q) "active customers" && containsSubstr (strLower q) "open tickets"),
    (.upgrade, fun q =>
      containsSubstr (strLower q) "upgrading my account" && (extractCustomerId q).isSome),
    (.escalation, fun q =>
      containsSubstr (strLower q) "charged twice" || containsSubstr (strLower q) "double charged"),
    (.updateEmailHistory, fun q =>
      containsSubstr (strLower q) "update my email" && containsSubstr (strLower q) "ticket history") ]

/-- First-match-wins over an ordered trigger list, falling back when no
trigger fires. -/
def firstMatchAux : List (Route × (String → Bool)) → String → Route
  | [], _ => .fallback
  | (r, p) :: rest, q => if p q then r else firstMatchAux rest q

/-- The spec-side router: the earliest trigger of §4.6 that fires. -/
def firstMatchRoute (q : String) : Route :=
  firstMatchAux routerTriggers q

/-- The ambiguous query of the spec's testable property. -/
def ambiguousQuery : String :=
  "I need help with my account, customer ID 1, but I also want to cancel and have billing issues"

/-! ### Concrete stores and inputs used to instantiate the theorems -/

/-- A JSON-RPC level error reply, as the client would see for an unknown
tool name. -/
def c2ErrResponse : McpResponse String :=
  { id := some 1, data := .rpcError (-32601) "Tool not found: bogus" }

/-- A reply whose HTTP status is 500: the transport-level call failed. -/
def c2FaultResponse : McpResponse String :=
  { id := some 1, data := .rpcError (-32603) "internal" }

def c3Cust1 : Customer := ⟨1, "Ann", "a@x.com", "111", "active", 0⟩
def c3Cust2 : Customer := ⟨2, "Bob", "b@x.com", "222", "active", 0⟩
def c3Cust3 : Customer := ⟨3, "Cam", "c@x.com", "333", "active", 0⟩
def c3OpenTicket : Ticket := ⟨10, 2, "printer jam", "open", "high", 3⟩
def c3ClosedTicket : Ticket := ⟨11, 2, "resolved issue", "closed", "low", 2⟩

/-- A listing backend with three active customers. -/
def c3ListFn : Option String → Int → ToolResult (List Customer) :=
  fun _ _ => .success [c3Cust1, c3Cust2, c3Cust3]

/-- A history backend where customer 1's fetch fails (simulated backend
fault), customer 2 has one open and one closed ticket, everyone else has
none. -/
def c3HistFn : Int → ToolResult (List Ticket) := fun i =>
  if i == 1 then .failure "Database error: simulated fault"
  else if i == 2 then .success [c3OpenTicket, c3ClosedTicket]
  else .success []

def c4Cust : Customer := ⟨1, "Ann", "a@x.com", "111", "active", 0⟩
def c4Db : DB := ⟨[c4Cust], [], 1, 7⟩
def c4Data : UpdateData := ⟨none, some "new@x.com", none, none⟩

def c5Cust : Customer := ⟨1, "Ann", "a@x.com", "111", "active", 0⟩
def c5Db : DB := ⟨[c5Cust], [⟨1, 1, "old issue", "closed", "low", 1⟩], 2, 9⟩

def c6Cust : Customer := ⟨1, "Ann", "a@x.com", "111", "active", 0⟩
def c6Db : DB := ⟨[c6Cust], [], 1, 0⟩

def c7Db : DB := ⟨[⟨1, "Ann", "a@x.com", "111", "active", 0⟩],
  [⟨1, 1, "login problem", "open", "low", 4⟩], 2, 5⟩

def c8Db : DB := ⟨[⟨1, "Ann", "a@x.com", "111", "active", 0⟩], [], 1, 0⟩

/-- A `tools/call` request naming a tool outside the catalogue. -/
def c8Msg : CallMessage :=
  { id := some 7, name := some "delete_customer",
    arguments := ⟨none, none, none, none, none, none⟩ }

def c9Db : DB := ⟨[⟨1, "Ann", "a@x.com", "111", "active", 0⟩],
  [⟨1, 1, "login problem", "open", "low", 4⟩], 2, 5⟩

def c10Db : DB := ⟨[⟨1, "Ann", "a@x.com", "111", "active", 0⟩,
  ⟨2, "Bob", "b@x.com", "222", "disabled", 0⟩], [], 1, 0⟩

/-! ### Helper lemmas -/

/-- `find?` over a map by a function that does not change the predicate's
verdict. -/
theorem find?_map_pred {α : Type} (p : α → Bool) (g : α → α)
    (hg : ∀ a, p (g a) = p a) :
    ∀ l : List α, (l.map g).find? p = (l.find? p).map g := by
  intro l
  induction l with
  | nil => rfl
  | cons a l ih =>
    simp only [List.map_cons, List.find?_cons, hg a]
    cases hp : p a <;> simp [hp, ih]

/-- A `filterMap` whose function is a guarded `some` is a `filter` followed
by a `map`. -/
theorem filterMap_if_eq {α β : Type} (p : α → Bool) (g : α → β) :
    ∀ l : List α,
      l.filterMap (fun a => if p a then some (g a) else none) =
        (l.filter p).map g := by
  intro l
  induction l with
  | nil => rfl
  | cons a l ih =>
    simp only [List.filterMap_cons, List.filter_cons]
    cases hp : p a <;> simp [hp, ih]

/-- The composite's loop body, read through the spec's keep/payload
decomposition. -/
theorem compositeStep_eq (histFn : Int → ToolResult (List Ticket)) (c : Customer) :
    compositeStep histFn c =
      if histKeeps histFn c then
        some { customer := c, open_tickets := openOf histFn c }
      else none := by
  unfold compositeStep histKeeps openOf
  cases hh : histFn c.id with
  | failure e => simp
  | success ts =>
    cases he : (ts.filter (fun t => t.status == "open")).isEmpty <;> simp [he]

/-! ### The claims -/

/-- C1: Orchestrator routing is first-match-wins over the fixed rule order
a–h: for every query string, `handle_query` dispatches to the earliest
matching trigger of the ordered list (so a query matching several triggers
resolves to the earliest); in particular the ambiguous account/billing
query resolves to the account-help rule (b), never the billing+cancellation
rule (c). -/
theorem C1_router_first_match_wins :
    (∀ q : String, handleQueryRoute q = firstMatchRoute q) ∧
    handleQueryRoute ambiguousQuery = Route.accountHelp ∧
    handleQueryRoute ambiguousQuery ≠ Route.billingCancel :=
  ⟨fun _ => rfl, by decide, by decide⟩

/-- C2 (counterexample): a tool call whose HTTP response has status 500 — a
transport-level failure — makes `mcp_call_tool` raise (`raise_for_status`),
i.e. the call propagates a raw fault (`Except.error`) instead of returning
any payload, contradicting the claim that every transport-level failure is
returned as a synthesized `success:false` payload. -/
theorem C2_counterexample :
    @mcp_call_tool String (.httpResponse 500 c2FaultResponse) =
      Except.error "HTTP error 500" ∧
    (@mcp_call_tool String (.httpResponse 500 c2FaultResponse)).isOk = false :=
  ⟨rfl, rfl⟩

/-- C2 (amended): `mcp_call_tool` synthesizes the failure payload
`\x7bsuccess:false, error:<message>\x7d` only for dispatch-level JSON-RPC
errors delivered over a successful HTTP call; a raised request exception or
a 400–599 status propagates as a raw fault to the caller. -/
theorem C2_transport_and_dispatch :
    (∀ (α : Type) (m : String), mcp_call_tool (.raised m : TransportOutcome α) =
      Except.error m) ∧
    (∀ (α : Type) (status : Nat) (body : McpResponse α),
      400 ≤ status → status < 600 →
      mcp_call_tool (.httpResponse status body) =
        Except.error s!"HTTP error {status}") ∧
    (∀ (α : Type) (status : Nat) (body : McpResponse α) (code : Int) (msg : String),
      ¬(400 ≤ status ∧ status < 600) → body.data = .rpcError code msg →
      mcp_call_tool (.httpResponse status body) =
        Except.ok (.synthesized msg)) := by
  refine ⟨fun _ _ => rfl, ?_, ?_⟩
  · intro α status body h1 h2
    simp only [mcp_call_tool, raiseForStatus]
    rw [if_pos ⟨h1, h2⟩]
  · intro α status body code msg hneg hdata
    simp only [mcp_call_tool, raiseForStatus]
    rw [if_neg hneg, hdata]

/-- C2 (witness): at status 404 the fault propagates; at status 200 with a
JSON-RPC error body the synthesized failure payload is returned. -/
theorem C2_witness :
    @mcp_call_tool String (.httpResponse 404 c2ErrResponse) =
      Except.error "HTTP error 404" ∧
    @mcp_call_tool String (.httpResponse 200 c2ErrResponse) =
      Except.ok (.synthesized "Tool not found: bogus") :=
  ⟨C2_transport_and_dispatch.2.1 String 404 c2ErrResponse (by decide) (by decide),
   C2_transport_and_dispatch.2.2 String 200 c2ErrResponse (-32601)
     "Tool not found: bogus" (by decide) rfl⟩

/-- C3: the composite read lists active customers with limit 100 (and the
backend then yields at most 100 customers, all active); it fails exactly
when — and how — the initial listing fails; on a successful listing it
succeeds with exactly the listed customers whose history fetch succeeded
and held at least one open ticket, each paired with exactly their open
tickets, in listing order; customers whose history fetch fails are silently
skipped (they simply drop out of the filter). -/
theorem C3_composite_characterization :
    ∀ (listFn : Option String → Int → ToolResult (List Customer))
      (histFn : Int → ToolResult (List Ticket)),
    (∀ e, listFn (some "active") 100 = .failure e →
      get_active_customers_with_open_tickets listFn histFn = .failure e) ∧
    (∀ cs, listFn (some "active") 100 = .success cs →
      get_active_customers_with_open_tickets listFn histFn =
        .success ((cs.filter (histKeeps histFn)).map
          (fun c => { customer := c, open_tickets := openOf histFn c }))) ∧
    (∀ (db : DB) (cs : List Customer),
      list_customers db (some "active") 100 = .success cs →
      cs.length ≤ 100 ∧ ∀ c ∈ cs, c.status = "active") := by
  intro listFn histFn
  refine ⟨?_, ?_, ?_⟩
  · intro e h
    simp only [get_active_customers_with_open_tickets, h]
  · intro cs h
    simp only [get_active_customers_with_open_tickets, h]
    have hstep : compositeStep histFn = fun c =>
        if histKeeps histFn c then
          some { customer := c, open_tickets := openOf histFn c }
        else none :=
      funext (compositeStep_eq histFn)
    rw [hstep, filterMap_if_eq]
  · intro db cs h
    have hrfl : list_customers db (some "active") 100 =
        .success (sqliteLimit 100 (sortById
          (db.customers.filter (fun c => c.status == "active")))) := rfl
    rw [hrfl] at h
    simp only [ToolResult.success.injEq] at h
    subst h
    have hlim : sqliteLimit (100 : Int) (sortById
        (db.customers.filter (fun c => c.status == "active"))) =
        (sortById (db.customers.filter (fun c => c.status == "active"))).take 100 := by
      simp [sqliteLimit]
    rw [hlim]
    constructor
    · exact List.length_take_le 100 _
    · intro c hc
      have hmem : c ∈ sortById (db.customers.filter (fun c => c.status == "active")) :=
        List.mem_of_mem_take hc
      have hmem2 : c ∈ db.customers.filter (fun c => c.status == "active") :=
        (List.perm_insertionSort _ _).mem_iff.mp hmem
      have := (List.mem_filter.mp hmem2).2
      simpa using this

/-- C3 (witness): with three active customers where customer 1's history
fetch fails, customer 2 has one open and one closed ticket and customer 3
has none, the composite succeeds with exactly customer 2 paired with the
open ticket. -/
theorem C3_witness :
    get_active_customers_with_open_tickets c3ListFn c3HistFn =
      .success [{ customer := c3Cust2, open_tickets := [c3OpenTicket] }] := by
  have h := (C3_composite_characterization c3ListFn c3HistFn).2.1
    [c3Cust1, c3Cust2, c3Cust3] rfl
  rw [h]
  decide

/-- C4: `update_customer` fails when no recognized field is provided, fails
when the id matches no existing customer, and otherwise applies every
provided recognized field to the matching row, sets `updated_at` to the
current timestamp, stores the updated table, and returns a success payload
carrying the post-update record with exactly those field values. -/
theorem C4_update_customer_spec :
    ∀ (db : DB) (cid : Int) (d : UpdateData),
    (d.hasValidField = false →
      update_customer db cid d = (.failure "No valid fields to update", db)) ∧
    (d.hasValidField = true →
      db.customers.find? (fun c => c.id == cid) = none →
      update_customer db cid d = (.failure s!"Customer {cid} not found", db)) ∧
    (∀ c0, d.hasValidField = true →
      db.customers.find? (fun c => c.id == cid) = some c0 →
      update_customer db cid d =
        (.success (applyUpdate d db.now c0),
         { db with customers := updatedCustomers db cid d }) ∧
      (applyUpdate d db.now c0).updated_at = db.now ∧
      (∀ v, d.name = some v → (applyUpdate d db.now c0).name = v) ∧
      (∀ v, d.email = some v → (applyUpdate d db.now c0).email = v) ∧
      (∀ v, d.phone = some v → (applyUpdate d db.now c0).phone = v) ∧
      (∀ v, d.status = some v → (applyUpdate d db.now c0).status = v)) := by
  intro db cid d
  refine ⟨?_, ?_, ?_⟩
  · intro h
    simp [update_customer, h]
  · intro h hf
    simp [update_customer, h, hf]
  · intro c0 h hf
    have hid : ∀ c : Customer,
        ((if c.id == cid then applyUpdate d db.now c else c).id == cid) =
          (c.id == cid) := by
      intro c
      cases hc : c.id == cid <;> simp [hc, applyUpdate]
    have hc0 := List.find?_some hf
    have hc0' : c0.id = cid := by simpa using hc0
    have hfind :
        (db.customers.map
          (fun c => if c.id == cid then applyUpdate d db.now c else c)).find?
            (fun c => c.id == cid) = some (applyUpdate d db.now c0) := by
      rw [find?_map_pred _ _ hid db.customers, hf]
      simp [hc0']
    refine ⟨?_, by simp [applyUpdate], ?_, ?_, ?_, ?_⟩
    · simp only [update_customer, h, Bool.not_true, Bool.false_eq_true,
        if_false, hf, updatedCustomers, hfind]
    · intro v hv; simp [applyUpdate, hv]
    · intro v hv; simp [applyUpdate, hv]
    · intro v hv; simp [applyUpdate, hv]
    · intro v hv; simp [applyUpdate, hv]

/-- C4 (witness): updating customer 1's email in a one-customer store
succeeds, returns the record with the new email and refreshed `updated_at`,
and stores it. -/
theorem C4_witness :
    update_customer c4Db 1 c4Data =
      (.success ⟨1, "Ann", "new@x.com", "111", "active", 7⟩,
       { c4Db with customers := [⟨1, "Ann", "new@x.com", "111", "active", 7⟩] }) := by
  have h := ((C4_update_customer_spec c4Db 1 c4Data).2.2 c4Cust (by decide)
    (by decide)).1
  rw [h]
  decide

/-- C5: `create_ticket` fails when the priority is outside
low/medium/high, fails when the customer id matches no existing customer,
and otherwise (given the assigned rowid is fresh) appends a ticket with
status `open` carrying the given issue, priority and current timestamp, and
returns a success payload with that ticket including its assigned id. -/
theorem C5_create_ticket_spec :
    ∀ (db : DB) (cid : Int) (issue priority : String),
    (["low", "medium", "high"].contains priority = false →
      create_ticket db cid issue priority =
        (.failure "Priority must be one of: \"low\", \"medium\", \"high\"", db)) ∧
    (["low", "medium", "high"].contains priority = true →
      db.customers.find? (fun c => c.id == cid) = none →
      create_ticket db cid issue priority =
        (.failure s!"Customer {cid} not found", db)) ∧
    (∀ c0, ["low", "medium", "high"].contains priority = true →
      db.customers.find? (fun c => c.id == cid) = some c0 →
      (∀ t ∈ db.tickets, t.id ≠ db.nextTicketId) →
      (create_ticket db cid issue priority).1 =
        .success ⟨db.nextTicketId, cid, issue, "open", priority, db.now⟩ ∧
      (create_ticket db cid issue priority).2.tickets =
        db.tickets ++ [⟨db.nextTicketId, cid, issue, "open", priority, db.now⟩] ∧
      (create_ticket db cid issue priority).2.nextTicketId = db.nextTicketId + 1) := by
  intro db cid issue priority
  refine ⟨?_, ?_, ?_⟩
  · intro h
    simp only [create_ticket, h, Bool.not_false, if_true]
  · intro h hf
    simp only [create_ticket, h, Bool.not_true, Bool.false_eq_true, if_false, hf]
  · intro c0 h hf hfresh
    have hnone : db.tickets.find? (fun x => x.id == db.nextTicketId) = none := by
      rw [List.find?_eq_none]
      intro t ht hbeq
      exact hfresh t ht (by simpa using hbeq)
    have hfind : (db.tickets ++
        [(⟨db.nextTicketId, cid, issue, "open", priority, db.now⟩ : Ticket)]).find?
          (fun x => x.id == db.nextTicketId) =
        some ⟨db.nextTicketId, cid, issue, "open", priority, db.now⟩ := by
      rw [List.find?_append, hnone]
      simp
    refine ⟨?_, ?_, ?_⟩ <;>
      simp only [create_ticket, h, Bool.not_true, Bool.false_eq_true, if_false,
        hf, hfind]

/-- C5 (witness): creating a high-priority ticket for customer 1 in a store
whose next rowid is 2 yields an open ticket with id 2 and appends it to the
table. -/
theorem C5_witness :
    (create_ticket c5Db 1 "printer jam" "high").1 =
      .success ⟨2, 1, "printer jam", "open", "high", 9⟩ := by
  have h := ((C5_create_ticket_spec c5Db 1 "printer jam" "high").2.2 c5Cust
    (by decide) (by decide) (by decide)).1
  rw [h]
  rfl

/-- C6 (counterexample): the empty string is outside the enumeration
\x7bactive, disabled\x7d, yet `list_customers` with status `""` returns a
success payload (the unfiltered listing), not a validation failure: the
source's `if status:` treats `""` as falsy and skips the enum check. -/
theorem C6_counterexample :
    list_customers c6Db (some "") 10 = .success [c6Cust] := by decide

/-- C6 (amended): for every NON-EMPTY status string outside
\x7bactive, disabled\x7d, `list_customers` returns the validation-failure
payload (and the model is a total function, so no crash); the empty string
is instead treated as an absent filter. -/
theorem C6_bad_status_validation :
    ∀ (db : DB) (s : String) (limit : Int),
    s ≠ "" → s ≠ "active" → s ≠ "disabled" →
    list_customers db (some s) limit =
      .failure "Status must be \"active\" or \"disabled\"" := by
  intro db s limit h1 h2 h3
  have e1 : (s == "") = false := beq_eq_false_iff_ne.mpr h1
  have e2 : (s == "active") = false := beq_eq_false_iff_ne.mpr h2
  have e3 : (s == "disabled") = false := beq_eq_false_iff_ne.mpr h3
  simp only [list_customers, e1, e2, e3, Bool.or_self, Bool.false_eq_true,
    if_false]

/-- C6 (witness): status `"bogus"` yields the validation failure. -/
theorem C6_witness :
    list_customers c6Db (some "bogus") 10 =
      .failure "Status must be \"active\" or \"disabled\"" :=
  C6_bad_status_validation c6Db "bogus" 10 (by decide) (by decide) (by decide)

/-- C7: for every store and customer id, `get_customer_history` returns a
success payload whose rows are exactly that customer's tickets (a
permutation of the table filter), ordered by `created_at` descending
(newest first); when the customer has no tickets the result is a successful
empty list, not an error. -/
theorem C7_history_sorted :
    ∀ (db : DB) (cid : Int),
    get_customer_history db cid = .success (historyRows db cid) ∧
    (historyRows db cid).Perm (db.tickets.filter (fun t => t.customer_id == cid)) ∧
    List.Sorted tickGe (historyRows db cid) ∧
    (db.tickets.filter (fun t => t.customer_id == cid) = [] →
      get_customer_history db cid = .success []) := by
  intro db cid
  refine ⟨rfl, List.perm_insertionSort _ _, List.sorted_insertionSort _ _, ?_⟩
  intro h
  simp [get_customer_history, historyRows, h]

/-- C7 (witness): customer 2 has no tickets in `c7Db`, and the history call
succeeds with the empty list. -/
theorem C7_witness : get_customer_history c7Db 2 = .success [] :=
  (C7_history_sorted c7Db 2).2.2.2 (by decide)

/-- C8: a `tools/call` request whose tool name is not one of the five
catalogued tools gets a response carrying an error object (code `-32601`,
a message naming the tool, the request id echoed) instead of a result
payload, and the store is returned unchanged — no backend operation ran. -/
theorem C8_unknown_tool :
    ∀ (db : DB) (m : CallMessage),
    nameKnown m.name = false →
    handle_tools_call db m =
      ({ id := m.id, outcome := .rpcError (-32601) (toolNotFoundMsg m.name) }, db) := by
  intro db m h
  simp only [handle_tools_call, h, Bool.false_eq_true, if_false]

/-- C8 (witness): calling the uncatalogued tool `delete_customer` yields
the `-32601` error echoing id 7, and the store is unchanged. -/
theorem C8_witness :
    handle_tools_call c8Db c8Msg =
      ({ id := some 7,
         outcome := .rpcError (-32601) "Tool not found: delete_customer" }, c8Db) := by
  have h := C8_unknown_tool c8Db c8Msg (by decide)
  rw [h]
  rfl

/-- C9: when every ticket references an existing customer (the store
invariant `create_ticket` maintains) and the queried id matches no
customer, `get_customer_history` returns a success payload with an empty
list — exactly what it returns for an existing customer with zero tickets,
so the operation never distinguishes the two. -/
theorem C9_history_unknown_customer :
    ∀ (db : DB) (cid : Int),
    (∀ t ∈ db.tickets, ∃ c ∈ db.customers, c.id = t.customer_id) →
    (∀ c ∈ db.customers, c.id ≠ cid) →
    get_customer_history db cid = .success [] := by
  intro db cid href hno
  have hfil : db.tickets.filter (fun t => t.customer_id == cid) = [] := by
    rw [List.filter_eq_nil_iff]
    intro t ht hp
    obtain ⟨c, hc, hid⟩ := href t ht
    have : t.customer_id = cid := by simpa using hp
    exact hno c hc (by rw [hid, this])
  simp [get_customer_history, historyRows, hfil]

/-- C9 (witness): `c9Db` holds only customer 1 (with one ticket); querying
history for the unknown id 2 succeeds with the empty list. -/
theorem C9_witness : get_customer_history c9Db 2 = .success [] :=
  C9_history_unknown_customer c9Db 2 (by decide) (by decide)

/-- C10: a `list_customers` call with status `""` behaves exactly like a
call with no status argument: it succeeds with the id-ordered customer
listing truncated to the limit, of any status, bypassing the enum check. -/
theorem C10_empty_status_unfiltered :
    ∀ (db : DB) (limit : Int),
    list_customers db (some "") limit = list_customers db none limit ∧
    list_customers db (some "") limit =
      .success (sqliteLimit limit (sortById db.customers)) :=
  fun _ _ => ⟨rfl, rfl⟩

end Mcs
